import Mathlib

/-!
Shallow embedding of `src/examples/calculator_mcp_server.py`.

The four tool functions `add`, `multiply`, `subtract`, `divide` are pure
Python functions from two floats to a formatted string.  We embed the
numeric operands as rationals (`ℚ`), which model the spec's "real numbers"
with exact arithmetic, and render them with `pyStr`, a stand-in for
Python's `str` on floats (whole values are printed with a trailing `.0`,
exactly as Python prints whole floats).  Every claim about the strings is
stated through `pyStr`, so the claims do not depend on the details of the
numeral rendering.

The operator separators are taken from the exact bytes of the source
file: the multiply template joins the operands with U+0E23 U+0097
(`"ร\u0097"`) and the divide template with U+0E23 U+0E17
(`"รท"`) — not with `*` and `/`.

For the negative-zero claim a second, refined operand type `PyFloat`
carries an explicit sign bit, and Python's `==` on floats is embedded as
comparison of the represented numeric values, under which `-0.0 == 0`
holds.
-/

namespace Calculator

/-- Rendering of a rational operand as Python renders a float:
a whole value prints with a trailing `.0`; other values fall back to a
`num/den` rendering (a placeholder for Python's decimal expansion, never
inspected by any claim). -/
def pyStr (q : ℚ) : String :=
  if q.den = 1 then toString q.num ++ ".0"
  else toString q.num ++ "/" ++ toString q.den

/-- The sentinel returned by `divide` on a zero divisor
(`calculator_mcp_server.py`, line 79). -/
def errorMsg : String := "Error: Cannot divide by zero"

/-- Embedding of `add` (lines 22–34): `result = a + b`;
`return f"The result of {a} + {b} = {result}"`. -/
def add (a b : ℚ) : String :=
  let result := a + b
  "The result of " ++ pyStr a ++ " + " ++ pyStr b ++ " = " ++ pyStr result

/-- Embedding of `multiply` (lines 37–49): `result = a * b`; the template joins the
operands with the two characters U+0E23 U+0097, the exact bytes on
line 49 of the source. -/
def multiply (a b : ℚ) : String :=
  let result := a * b
  "The result of " ++ pyStr a ++ " ร\u0097 " ++ pyStr b ++ " = " ++ pyStr result

/-- Embedding of `subtract` (lines 52–64): `result = a - b`;
`return f"The result of {a} - {b} = {result}"`. -/
def subtract (a b : ℚ) : String :=
  let result := a - b
  "The result of " ++ pyStr a ++ " - " ++ pyStr b ++ " = " ++ pyStr result

/-- Embedding of `divide` (lines 67–81): `if b == 0: return "Error: Cannot divide by
zero"`, else `result = a / b` and a template joining the operands with the
two characters U+0E23 U+0E17, the exact bytes on line 81 of the source. -/
def divide (a b : ℚ) : String :=
  if b == 0 then "Error: Cannot divide by zero"
  else
    let result := a / b
    "The result of " ++ pyStr a ++ " รท " ++ pyStr b ++ " = " ++ pyStr result

/-- The four tool names registered with the server. -/
inductive Op
  | add
  | sub
  | mul
  | div
deriving DecidableEq, Repr

/-- One tool invocation: an operation name and its two operands. -/
structure Call where
  op : Op
  a : ℚ
  b : ℚ

/-- Dispatch of a single tool call to the corresponding function — the
server holds no state, so a call is a function of the request alone. -/
def respond (c : Call) : String :=
  match c.op with
  | .add => add c.a c.b
  | .sub => subtract c.a c.b
  | .mul => multiply c.a c.b
  | .div => divide c.a c.b

/-- A whole session: the server answers a request stream one call at a
time, threading no state between calls. -/
def runCalls (cs : List Call) : List String :=
  cs.map respond

/-- Refined operand type for the negative-zero claim: a Python float-style
value with an explicit sign bit, so that `-0.0` (sign set, magnitude `0`)
is distinct from `0.0` as a datum while representing the same numeric
value. -/
structure PyFloat where
  neg : Bool
  mag : ℚ

/-- The numeric value a `PyFloat` represents. -/
def PyFloat.val (x : PyFloat) : ℚ :=
  if x.neg then -x.mag else x.mag

/-- Python's `==` on floats compares represented numeric values, so
`-0.0 == 0` is true. -/
def pyEq (x y : PyFloat) : Bool :=
  x.val == y.val

/-- The literal `0` the divisor is compared against on line 78. -/
def PyFloat.zero : PyFloat := ⟨false, 0⟩

/-- The negative-zero float `-0.0`. -/
def negZero : PyFloat := ⟨true, 0⟩

/-- Rendering of a `PyFloat`, matching Python's `str`: a set sign bit
prints a leading minus, so `str(-0.0) = "-0.0"`. -/
def pyStrF (x : PyFloat) : String :=
  (if x.neg then "-" else "") ++ pyStr x.mag

/-- Sign-aware division of `PyFloat` values. -/
def fdiv (x y : PyFloat) : PyFloat :=
  ⟨xor x.neg y.neg, x.mag / y.mag⟩

/-- Embedding of `divide` over the sign-carrying operand type: the guard
is Python's float comparison `b == 0` (`pyEq b PyFloat.zero`), exactly as
on line 78 of the source. -/
def divideF (a b : PyFloat) : String :=
  if pyEq b PyFloat.zero then "Error: Cannot divide by zero"
  else
    let result := fdiv a b
    "The result of " ++ pyStrF a ++ " รท " ++ pyStrF b ++ " = " ++ pyStrF result

/-! ## Helper lemmas -/

/-- Appending on the right preserves the first character of a string. -/
lemma head_append_left (s t : String) (c : Char) (h : s.data.head? = some c) :
    (s ++ t).data.head? = some c := by
  rw [String.data_append]
  cases hs : s.data with
  | nil => rw [hs] at h; exact absurd h (by simp)
  | cons x xs =>
    rw [hs] at h
    simp at h
    simp [h]

/-- Every formatted result message starts with the character `T`. -/
lemma resultMsg_head (x s y r : String) :
    ("The result of " ++ x ++ s ++ y ++ " = " ++ r).data.head? = some 'T' := by
  apply head_append_left
  apply head_append_left
  apply head_append_left
  apply head_append_left
  apply head_append_left
  rfl

/-- A formatted result message is never the division-by-zero sentinel:
the former starts with `T`, the latter with `E`. -/
lemma resultMsg_ne_error (x s y r : String) :
    "The result of " ++ x ++ s ++ y ++ " = " ++ r ≠ "Error: Cannot divide by zero" := by
  intro h
  have h1 : ("The result of " ++ x ++ s ++ y ++ " = " ++ r).data.head?
      = ("Error: Cannot divide by zero" : String).data.head? := by rw [h]
  rw [resultMsg_head] at h1
  exact absurd h1 (by decide)

/-- On a nonzero divisor, `divide` takes the else branch and builds the
formatted quotient message. -/
lemma divide_of_ne (a b : ℚ) (h : b ≠ 0) :
    divide a b = "The result of " ++ pyStr a ++ " รท " ++ pyStr b ++ " = " ++ pyStr (a / b) := by
  simp [divide, h]

/-! ## Claims -/

/-- Claim C1: for every input `a`, `divide a 0` returns exactly the string
`"Error: Cannot divide by zero"`.  In the embedding, as on lines 78–79 of
the source, the quotient `a / b` appears only in the else branch, so no
division is performed on this branch. -/
theorem divide_by_zero_returns_error (a : ℚ) :
    divide a 0 = "Error: Cannot divide by zero" := by
  simp [divide]

/-- Counterexample to claim C2 as stated: at `a = 10`, `b = 2` the result
of `divide` is not the operands joined by the character `/` — the source
template joins them with the two characters U+0E23 U+0E17 instead. -/
theorem divide_not_slash_at_ten_two :
    divide 10 2 ≠ "The result of " ++ pyStr 10 ++ " / " ++ pyStr 2 ++ " = " ++ pyStr (10 / 2) := by
  decide

/-- Claim C2 (amended): for all `a` and `b` with `b ≠ 0`, `divide a b`
returns exactly `"The result of {a} รท {b} = {a/b}"`, the operands joined
by the two characters U+0E23 U+0E17 from line 81 of the source, followed
by `=` and the quotient. -/
theorem divide_nonzero_format (a b : ℚ) (h : b ≠ 0) :
    divide a b = "The result of " ++ pyStr a ++ " รท " ++ pyStr b ++ " = " ++ pyStr (a / b) :=
  divide_of_ne a b h

/-- Witness for claim C2's amended theorem at `a = 10`, `b = 2`. -/
theorem divide_nonzero_format_witness :
    (2 : ℚ) ≠ 0 ∧ divide 10 2 = "The result of 10.0 รท 2.0 = 5.0" := by
  refine ⟨by norm_num, ?_⟩
  rw [divide_nonzero_format 10 2 (by norm_num)]
  simp only [pyStr, show (10 / 2 : ℚ) = 5 by norm_num, Rat.den_ofNat, Rat.num_ofNat, if_pos]
  rfl

/-- Counterexample to claim C3 as stated: at `a = 3`, `b = 7` the result
of `multiply` is not the operands joined by the character `*` — the source
template joins them with the two characters U+0E23 U+0097 instead. -/
theorem multiply_not_star_at_three_seven :
    multiply 3 7 ≠ "The result of " ++ pyStr 3 ++ " * " ++ pyStr 7 ++ " = " ++ pyStr (3 * 7) := by
  decide

/-- Claim C3 (amended): for all `a` and `b`, `multiply a b` returns
exactly the string whose operands are joined by the two characters
U+0E23 U+0097 from line 49 of the source, followed by `=` and the
product. -/
theorem multiply_format (a b : ℚ) :
    multiply a b = "The result of " ++ pyStr a ++ " ร\u0097 " ++ pyStr b ++ " = " ++ pyStr (a * b) :=
  rfl

/-- Claim C4: for all `a` and `b`, `add a b` returns exactly
`"The result of {a} + {b} = {a+b}"`; in particular the returned string
contains the rendering of `a + b`. -/
theorem add_format (a b : ℚ) :
    add a b = "The result of " ++ pyStr a ++ " + " ++ pyStr b ++ " = " ++ pyStr (a + b) ∧
    ∃ p, add a b = p ++ pyStr (a + b) :=
  ⟨rfl, ⟨_, rfl⟩⟩

/-- Claim C5: for all `a` and `b`, `subtract a b` returns exactly
`"The result of {a} - {b} = {a-b}"`; in particular the returned string
contains the rendering of `a - b`. -/
theorem subtract_format (a b : ℚ) :
    subtract a b = "The result of " ++ pyStr a ++ " - " ++ pyStr b ++ " = " ++ pyStr (a - b) ∧
    ∃ p, subtract a b = p ++ pyStr (a - b) :=
  ⟨rfl, ⟨_, rfl⟩⟩

/-- Claim C6: for all `a` and `b`, the string returned by `multiply a b`
contains the rendering of the product `a * b` as a substring (here: as a
suffix, so a substring). -/
theorem multiply_contains_product (a b : ℚ) :
    ∃ p, multiply a b = p ++ pyStr (a * b) :=
  ⟨_, rfl⟩

/-- Claim C7: for all `a` and `b` with `b ≠ 0`, the string returned by
`divide a b` contains the rendering of the quotient `a / b` as a
substring (here: as a suffix, so a substring). -/
theorem divide_contains_quotient (a b : ℚ) (h : b ≠ 0) :
    ∃ p, divide a b = p ++ pyStr (a / b) :=
  ⟨"The result of " ++ pyStr a ++ " รท " ++ pyStr b ++ " = ", by rw [divide_of_ne a b h]⟩

/-- Witness for claim C7's theorem at `a = 10`, `b = 2`. -/
theorem divide_contains_quotient_witness :
    (2 : ℚ) ≠ 0 ∧ ∃ p, divide 10 2 = p ++ pyStr (10 / 2) :=
  ⟨by norm_num, divide_contains_quotient 10 2 (by norm_num)⟩

/-- Claim C8: division by zero is the only error condition — `add`,
`subtract` and `multiply` never return the error sentinel, and `divide`
returns it if and only if `b = 0`.  All four embeddings are total Lean
functions into `String`, so no input raises a fault to the caller. -/
theorem only_error_is_divide_by_zero (a b : ℚ) :
    add a b ≠ errorMsg ∧ subtract a b ≠ errorMsg ∧ multiply a b ≠ errorMsg ∧
    (divide a b = errorMsg ↔ b = 0) := by
  refine ⟨resultMsg_ne_error _ _ _ _, resultMsg_ne_error _ _ _ _,
    resultMsg_ne_error _ _ _ _, ?_, ?_⟩
  · intro h
    by_cases hb : b = 0
    · exact hb
    · rw [divide_of_ne a b hb] at h
      exact absurd h (resultMsg_ne_error _ _ _ _)
  · intro hb
    subst hb
    simp [divide, errorMsg]

/-- Claim C9: each operation is a pure, stateless, deterministic function
of its two arguments.  In a session, the list of responses decomposes
pointwise, and the response at the position of a call `c` is `respond c`
whatever calls precede or follow it — no call depends on any earlier call
or on call order. -/
theorem calls_stateless (pre post : List Call) (c : Call) :
    runCalls (pre ++ c :: post) = runCalls pre ++ respond c :: runCalls post ∧
    (runCalls (pre ++ c :: post))[pre.length]? = some (respond c) := by
  have h : runCalls (pre ++ c :: post) = runCalls pre ++ respond c :: runCalls post := by
    simp [runCalls]
  refine ⟨h, ?_⟩
  rw [h, List.getElem?_append_right (by simp [runCalls])]
  simp [runCalls]

/-- Claim C10: because the zero guard is the float comparison `b == 0`,
which compares represented numeric values, a negative-zero divisor also
takes the error branch: for every `a`, `divideF a negZero` returns
`"Error: Cannot divide by zero"` and not a formatted quotient. -/
theorem divideF_neg_zero (a : PyFloat) :
    divideF a negZero = "Error: Cannot divide by zero" := by
  simp [divideF, pyEq, PyFloat.val, negZero, PyFloat.zero]

end Calculator
